import Mathlib

namespace LiqArb

/-! ## RangeMath: group-start arithmetic -/

/-- Tick-array capacity of the Raydium CLMM program
(`raydium_amm_v3::states::tick_array::TICK_ARRAY_SIZE`, value 60),
referenced by `src/src/raydium.rs`. -/
def TICK_ARRAY_SIZE : Int := 60

/-- Embeds `tick_array_start_index` from `src/src/raydium.rs` lines 129-136:
`size = TICK_ARRAY_SIZE * tick_spacing; start = (tick / size) * size;
if tick < 0 && tick % size != 0 { start -= size; }`. Rust `/` and `%` on
`i32` are truncating, hence `Int.tdiv` / `Int.tmod`. -/
def tick_array_start_index (tick : Int) (tick_spacing : Int) : Int :=
  let size : Int := TICK_ARRAY_SIZE * tick_spacing
  let start : Int := tick.tdiv size * size
  if tick < 0 ∧ tick.tmod size ≠ 0 then start - size else start

/-- Bins per bin array (`const BINS_PER_ARRAY: i32 = 70` in
`src/src/meteora.rs` line 483). -/
def BINS_PER_ARRAY : Int := 70

/-- Embeds `bin_array_index_for_bin_id` from `src/src/meteora.rs` lines
485-493: `if id >= 0 { id / per } else { (id - (per - 1)) / per }` with
`per = 70`, truncating `i64` division. -/
def bin_array_index_for_bin_id (bin_id : Int) : Int :=
  let per : Int := BINS_PER_ARRAY
  if bin_id ≥ 0 then bin_id.tdiv per else (bin_id - (per - 1)).tdiv per

/-- Start bin id of the bin array with index `bin_array_index_for_bin_id id`:
each bin array spans `BINS_PER_ARRAY` consecutive bin ids, so the group start
implied by the index is `70 * index`. -/
def meteora_bin_array_start (bin_id : Int) : Int :=
  BINS_PER_ARRAY * bin_array_index_for_bin_id bin_id

/-- Embeds `tick_array_start` from `src/solana_liq_arb/src/pool.rs` lines
6-10: `span = 60 * tick_spacing; (tick.div_euclid(span)) * span`.
`div_euclid` is Euclidean division, which for positive divisors is `Int.ediv`
(Lean `/`). -/
def tick_array_start (tick : Int) (tick_spacing : Int) : Int :=
  let span : Int := 60 * tick_spacing
  (tick / span) * span

/-! ## AddressDerivation: seed byte layouts -/

/-- Byte strings (seed components, pubkeys, account data) as lists of bytes. -/
abbrev Bytes := List Nat

/-- Two's-complement unsigned reinterpretation of an `i32` value. -/
def toU32 (n : Int) : Nat := (n % (2 ^ 32 : Int)).toNat

/-- Two's-complement unsigned reinterpretation of an `i64` value. -/
def toU64 (n : Int) : Nat := (n % (2 ^ 64 : Int)).toNat

/-- Byte `i` (counting from the least significant) of a natural number. -/
def natByte (n i : Nat) : Nat := n / 256 ^ i % 256

/-- Big-endian byte encoding of an `i32` (Rust `i32::to_be_bytes`). -/
def i32_to_be_bytes (n : Int) : Bytes :=
  [natByte (toU32 n) 3, natByte (toU32 n) 2, natByte (toU32 n) 1, natByte (toU32 n) 0]

/-- Little-endian byte encoding of an `i32` (Rust `i32::to_le_bytes`). -/
def i32_to_le_bytes (n : Int) : Bytes :=
  [natByte (toU32 n) 0, natByte (toU32 n) 1, natByte (toU32 n) 2, natByte (toU32 n) 3]

/-- Little-endian byte encoding of an `i64` (Rust `i64::to_le_bytes`). -/
def i64_to_le_bytes (n : Int) : Bytes :=
  [natByte (toU64 n) 0, natByte (toU64 n) 1, natByte (toU64 n) 2, natByte (toU64 n) 3,
   natByte (toU64 n) 4, natByte (toU64 n) 5, natByte (toU64 n) 6, natByte (toU64 n) 7]

/-- ASCII bytes of the Raydium tick-array seed string
(`raydium_amm_v3::states::tick_array::TICK_ARRAY_SEED`, value "tick_array";
also the literal `b"tick_array"` in `src/solana_liq_arb/src/open_cmd.rs`). -/
def TICK_ARRAY_SEED : Bytes := ("tick_array".data.map Char.toNat)

/-- ASCII bytes of the Meteora bin-array seed string (`b"bin_array"` in
`src/src/meteora.rs` line 499). -/
def BIN_ARRAY_SEED : Bytes := ("bin_array".data.map Char.toNat)

/-- Embeds the seed list of `derive_tick_array_pda` in `src/src/raydium.rs`
lines 138-147: `[TICK_ARRAY_SEED, pool, start_index.to_be_bytes()]`
(big-endian `i32`). -/
def derive_tick_array_pda_seeds (pool : Bytes) (start_index : Int) : List Bytes :=
  [TICK_ARRAY_SEED, pool, i32_to_be_bytes start_index]

/-- Embeds the seed list of `tick_array_pda` in
`src/solana_liq_arb/src/open_cmd.rs` lines 188-193:
`[b"tick_array", pool, start.to_le_bytes()]` (little-endian `i32`). -/
def open_cmd_tick_array_pda_seeds (pool : Bytes) (start : Int) : List Bytes :=
  [TICK_ARRAY_SEED, pool, i32_to_le_bytes start]

/-- Embeds the seed list of `derive_bin_array_address` in `src/src/meteora.rs`
lines 495-501: `[b"bin_array", lb_pair, index.to_le_bytes()]` with
`index : i64` (little-endian). -/
def derive_bin_array_address_seeds (lb_pair : Bytes) (index : Int) : List Bytes :=
  [BIN_ARRAY_SEED, lb_pair, i64_to_le_bytes index]

/-! ## Meteora bin-array pair perturbation (C3) -/

/-- Embeds the bin-array index selection shared by Meteora `handle_open`
(`src/src/meteora.rs` lines 140-144) and `handle_remove_all` (lines 256-260):
the lower index comes from the lower bin id, the upper index from the upper
bin id, and when the two coincide the upper index is nudged to `lower + 1`. -/
def meteora_bin_array_pair_indices (lower upper : Int) : Int × Int :=
  let l := bin_array_index_for_bin_id lower
  let u := bin_array_index_for_bin_id upper
  if l = u then (l, l + 1) else (l, u)

/-- Position-initialization arguments passed by Meteora `handle_open`
(`src/src/meteora.rs` lines 109 and 160-161): `lower_bin_id` is the
requested lower bound and `width` is `req_upper - req_lower + 1`. -/
structure MeteoraInitPositionArgs where
  lower_bin_id : Int
  width : Int
deriving DecidableEq, Repr

/-- Embeds the `lower_bin_id`/`width` arguments built in `handle_open`. -/
def meteora_init_position_args (req_lower req_upper : Int) : MeteoraInitPositionArgs :=
  { lower_bin_id := req_lower, width := req_upper - req_lower + 1 }

/-! ## LiquidityQuoter: open-position quoting (C4, C5) -/

/-- Quote returned by the external Orca quoting library
(`orca_whirlpools_core` increase-liquidity quotes): the liquidity delta and
the maximum amounts of each token consumed. Only the fields read by
`src/src/orca.rs` are modelled. -/
structure OrcaQuote where
  liquidity_delta : Nat
  token_max_a : Nat
  token_max_b : Nat
deriving DecidableEq, Repr

/-- Failure conditions of the open-position quoting paths. Each constructor
corresponds to one error site in the source and carries exactly the data
the source interpolates into its message:
`aboveRange` is `raydium.rs` lines 762-765 (no numbers in the message),
`belowRange` lines 774-777, `zeroLiquidity` lines 795-798, `quoteFailed`
the `map_err` pass-through sites in `orca.rs`, `needsOtherToken` the
failure of the spec-modelled single-sided quoter, and `amountsTooLow` is
`orca.rs` lines 360-364 carrying `quote_b.token_max_a` and
`quote_a.token_max_b`. -/
inductive OpenQuoteErr
  | aboveRange
  | belowRange
  | zeroLiquidity
  | quoteFailed
  | needsOtherToken
  | amountsTooLow (token_max_a : Nat) (token_max_b : Nat)
deriving DecidableEq, Repr

/-- Embeds the liquidity-quoting section of Raydium `handle_open`
(`src/src/raydium.rs` lines 750-799). `sqrt_cur` is the pool's current
sqrt price; `sqrt_a`/`sqrt_b` are the sqrt prices at the lower/upper tick,
sorted into `(sqrt_lo, sqrt_hi)` exactly as in lines 755-759. The external
library functions `get_liquidity_from_single_amount_0/1` and
`get_liquidity_from_amounts` (crate `raydium_amm_v3`) are passed as the
parameters `getL0`, `getL1`, `getLA`; the code threads their results
through unchanged. A zero liquidity result is rejected afterwards
(line 795). -/
def raydium_open_quote
    (getL0 getL1 : Nat → Nat → Nat → Nat → Nat)
    (getLA : Nat → Nat → Nat → Nat → Nat → Nat)
    (sqrt_cur sqrt_a sqrt_b : Nat) (amount0 amount1 : Nat) :
    Except OpenQuoteErr Nat :=
  let sqrt_lo := min sqrt_a sqrt_b
  let sqrt_hi := max sqrt_a sqrt_b
  let liquidity : Except OpenQuoteErr Nat :=
    if amount0 > 0 ∧ amount1 = 0 then
      if sqrt_cur ≥ sqrt_hi then .error .aboveRange
      else .ok (getL0 sqrt_cur sqrt_lo sqrt_hi amount0)
    else if amount1 > 0 ∧ amount0 = 0 then
      if sqrt_cur ≤ sqrt_lo then .error .belowRange
      else .ok (getL1 sqrt_cur sqrt_lo sqrt_hi amount1)
    else .ok (getLA sqrt_cur sqrt_lo sqrt_hi amount0 amount1)
  match liquidity with
  | .error e => .error e
  | .ok l => if l = 0 then .error .zeroLiquidity else .ok l

/-- Modelled from the spec: the Orca backend delegates single-sided
quoting to `increase_liquidity_quote_a` of the external crate
`orca_whirlpools_core`, which is not part of this repository. Per the
spec's LiquidityQuoter contract, with only token A's budget nonzero and
the current price at or above the top of the range the quote fails (the
range needs the other token); the in-range computation itself is kept
abstract as `compute`. -/
def spec_increase_liquidity_quote_a
    (compute : Nat → Nat → Nat → Nat → OrcaQuote)
    (amount_a sqrt_cur sqrt_lo sqrt_hi : Nat) : Except OpenQuoteErr OrcaQuote :=
  if sqrt_cur ≥ sqrt_hi then .error .needsOtherToken
  else .ok (compute amount_a sqrt_cur sqrt_lo sqrt_hi)

/-- Modelled from the spec: symmetric single-sided quote for token B
(`increase_liquidity_quote_b` of the external crate), failing when the
current price is at or below the bottom of the range. -/
def spec_increase_liquidity_quote_b
    (compute : Nat → Nat → Nat → Nat → OrcaQuote)
    (amount_b sqrt_cur sqrt_lo sqrt_hi : Nat) : Except OpenQuoteErr OrcaQuote :=
  if sqrt_cur ≤ sqrt_lo then .error .needsOtherToken
  else .ok (compute amount_b sqrt_cur sqrt_lo sqrt_hi)

/-- Embeds the quoting section of Orca `handle_open` (`src/src/orca.rs`
lines 307-367). `quoteA`/`quoteB` stand for the external library calls
(whose failures the code propagates via `map_err ... ?`). With both
budgets nonzero the code computes the token0-driven quote, accepts it when
its token1 requirement fits `amount1`, otherwise computes the token1-driven
quote, accepts it when its token0 requirement fits `amount0`, and otherwise
fails reporting `quote_b.token_max_a` and `quote_a.token_max_b`. -/
def orca_open_quote
    (quoteA quoteB : Nat → Except OpenQuoteErr OrcaQuote)
    (amount0 amount1 : Nat) : Except OpenQuoteErr OrcaQuote :=
  if amount0 > 0 ∧ amount1 = 0 then quoteA amount0
  else if amount1 > 0 ∧ amount0 = 0 then quoteB amount1
  else
    match quoteA amount0 with
    | .error e => .error e
    | .ok quote_a =>
      if quote_a.token_max_b ≤ amount1 then .ok quote_a
      else
        match quoteB amount1 with
        | .error e => .error e
        | .ok quote_b =>
          if quote_b.token_max_a ≤ amount0 then .ok quote_b
          else .error (.amountsTooLow quote_b.token_max_a quote_a.token_max_b)

/-- Statement of claim C5 as it applies to the Raydium open path: with both
budgets nonzero, every failure of the quoting section reports the two
computed maxima (an amounts-too-low error carrying them), whatever the
external liquidity functions do. -/
def C5_claim_on_raydium : Prop :=
  ∀ (getL0 getL1 : Nat → Nat → Nat → Nat → Nat)
    (getLA : Nat → Nat → Nat → Nat → Nat → Nat)
    (sqrt_cur sqrt_a sqrt_b amount0 amount1 : Nat) (e : OpenQuoteErr),
    0 < amount0 → 0 < amount1 →
    raydium_open_quote getL0 getL1 getLA sqrt_cur sqrt_a sqrt_b amount0 amount1
      = .error e →
    ∃ m0 m1, e = .amountsTooLow m0 m1

/-! ## PositionSnapshotDecoder: decode integrity (C6) -/

/-- A fetched Solana account as seen by the decode paths: the owning
program (as an abstract program token) and the raw data buffer. -/
structure AccountRec where
  owner : Nat
  data : Bytes
deriving DecidableEq, Repr

/-- Embeds `decode_whirlpool` (`src/src/orca.rs` lines 591-602): the buffer
is rejected unless its length equals the fixed record size `Whirlpool::LEN`
(external constant, the parameter `LEN`); then it is borsh-deserialized
(external fallible deserializer, the parameter `parse`). -/
def decode_whirlpool {α : Type} (LEN : Nat) (parse : Bytes → Option α)
    (data : Bytes) : Except String α :=
  if data.length ≠ LEN then .error "whirlpool account length mismatch"
  else
    match parse data with
    | none => .error "decode Whirlpool account from buffer"
    | some w => .ok w

/-- Embeds `decode_position` (`src/src/orca.rs` lines 604-615): identical
shape with `Position::LEN`. -/
def decode_position {α : Type} (LEN : Nat) (parse : Bytes → Option α)
    (data : Bytes) : Except String α :=
  if data.length ≠ LEN then .error "position account length mismatch"
  else
    match parse data with
    | none => .error "decode Position account from buffer"
    | some p => .ok p

/-- Embeds the whirlpool fetch of Orca `handle_swap` / `handle_open` /
`handle_remove_all` (`src/src/orca.rs` lines 141-151, 252-261, 443-452):
the fetched account must be owned by the Whirlpool program, then the data
is decoded. -/
def orca_fetch_whirlpool {α : Type} (program_id LEN : Nat)
    (parse : Bytes → Option α) (acc : AccountRec) : Except String α :=
  if acc.owner ≠ program_id then .error "pool account owner mismatch"
  else decode_whirlpool LEN parse acc.data

/-- Embeds the position fetch of Orca `handle_remove_all` (`src/src/orca.rs`
lines 414-431): the account data is decoded directly; the account's owner
is never inspected. -/
def orca_fetch_position {α : Type} (LEN : Nat) (parse : Bytes → Option α)
    (acc : AccountRec) : Except String α :=
  decode_position LEN parse acc.data

/-- Embeds the personal-position fetch of Raydium `handle_remove_all`
(`src/src/raydium.rs` lines 285-297): the owner must equal the CLMM
program, then the data is decoded by the external `raydium_clmm`
deserializer (parameter `decode`). -/
def raydium_fetch_personal_position {α : Type} (clmm_program : Nat)
    (decode : Bytes → Option α) (acc : AccountRec) : Except String α :=
  if acc.owner ≠ clmm_program then
    .error "personal_position account owner mismatch"
  else
    match decode acc.data with
    | none => .error "decode personal position via raydium_clmm"
    | some p => .ok p

/-- Embeds the pool fetch of Raydium `handle_remove_all` and `handle_open`
(`src/src/raydium.rs` lines 303-312 and 640-650): same owner check against
the CLMM program before decoding. -/
def raydium_fetch_pool {α : Type} (clmm_program : Nat)
    (decode : Bytes → Option α) (acc : AccountRec) : Except String α :=
  if acc.owner ≠ clmm_program then
    .error "pool account owner mismatch"
  else
    match decode acc.data with
    | none => .error "decode pool via raydium_clmm"
    | some p => .ok p

/-- Embeds the LbPair fetch of Meteora `handle_open` (`src/src/meteora.rs`
lines 111-115; the same shape recurs in `handle_remove_all` lines 219-235
for the position and the pair, and in `handle_swap` lines 315-321): the
data is decoded by the external `from_bytes`; the account's owner is never
inspected. -/
def meteora_fetch_lb_pair {α : Type} (parse : Bytes → Option α)
    (acc : AccountRec) : Except String α :=
  match parse acc.data with
  | none => .error "decode LbPair"
  | some p => .ok p

/-! ## InstructionAssembler: swap and remove plans (C7, C8, C10) -/

/-- Token for the legacy SPL Token program id (`spl_token::ID`). The source
only compares program ids for equality, so distinct `Nat` tokens model the
distinct program ids. -/
def SPL_TOKEN_PROGRAM : Nat := 1

/-- Token for the SPL Token-2022 program id (`spl_token_2022::ID`). -/
def TOKEN_2022_PROGRAM : Nat := 2

/-- Embeds `detect_token_program_for_mint` (`src/src/orca.rs` lines 581-588
and `src/src/meteora.rs` lines 435-442): a mint owned by token-2022 selects
the token-2022 program, anything else the legacy program. -/
def detect_token_program_for_mint (mint_owner : Nat) : Nat :=
  if mint_owner = TOKEN_2022_PROGRAM then TOKEN_2022_PROGRAM else SPL_TOKEN_PROGRAM

/-- Embeds the Raydium mint-program normalization (`src/src/raydium.rs`
lines 332-336, 347-351, 674-678, 689-693): the legacy program stays,
anything else maps to token-2022. -/
def raydium_normalize_token_program (mint_owner : Nat) : Nat :=
  if mint_owner = SPL_TOKEN_PROGRAM then SPL_TOKEN_PROGRAM else TOKEN_2022_PROGRAM

/-- Instructions appended by the assembly paths, abstracted to their kind
and the data the claims are about. `swapIx` carries the list of range-group
identifiers (tick-array start indices or bin-array indices) that the swap
instruction references. -/
inductive PlanIx
  | createAta (token_program : Nat)
  | swapIx (groups : List Int)
  | initPosition
  | addLiquidity
  | decLiquidity
  | collectFees
  | removeLiq
  | closePos
deriving DecidableEq, Repr

/-- Range-group reference lists of the swap instructions in a plan. -/
def swap_ix_groups (plan : List PlanIx) : List (List Int) :=
  plan.filterMap fun ix =>
    match ix with
    | .swapIx g => some g
    | _ => none

/-- Errors of the swap/remove assembly paths, one constructor per bail
site, carrying the data the source interpolates. `token2022` is the
rejection at `src/src/raydium.rs` lines 540-546, which names both fetched
mint owners. -/
inductive AsmErr
  | zeroAmountIn
  | poolOwnerMismatch
  | token2022 (input_owner output_owner : Nat)
  | positionOwnerMismatch
  | zeroLiquidity
deriving DecidableEq, Repr

/-- Embeds Raydium `handle_swap` (`src/src/raydium.rs` lines 489-604),
restricted to its externally visible decisions in source order: the
amount validation (line 498), the pool owner check (line 503), the
rejection of non-legacy token mints (lines 540-546), creation of missing
ATAs under the legacy program (lines 548-575), and a single swap
instruction referencing only the tick array that contains
`pool.tick_current` (lines 577-604). -/
def raydium_handle_swap_plan (clmm_program : Nat) (amount_in : Nat)
    (pool_owner : Nat) (input_mint_owner output_mint_owner : Nat)
    (ata_in_exists ata_out_exists : Bool)
    (tick_current tick_spacing : Int) : Except AsmErr (List PlanIx) :=
  if amount_in = 0 then .error .zeroAmountIn
  else if pool_owner ≠ clmm_program then .error .poolOwnerMismatch
  else if input_mint_owner ≠ SPL_TOKEN_PROGRAM ∨ output_mint_owner ≠ SPL_TOKEN_PROGRAM then
    .error (.token2022 input_mint_owner output_mint_owner)
  else
    .ok ((if ata_in_exists then [] else [.createAta SPL_TOKEN_PROGRAM])
      ++ (if ata_out_exists then [] else [.createAta SPL_TOKEN_PROGRAM])
      ++ [.swapIx [tick_array_start_index tick_current tick_spacing]])

/-- Tick-array capacity of the Orca Whirlpool program
(`orca_whirlpools_core::TICK_ARRAY_SIZE`, value 88), referenced by
`src/src/orca.rs` line 39. -/
def ORCA_TICK_ARRAY_SIZE : Int := 88

/-- Embeds the tick-array window of Orca `handle_swap` (`src/src/orca.rs`
lines 167-181): the current array start `start0` (computed by the external
`get_tick_array_start_tick_index`) plus the two neighboring array starts
in the swap direction, spaced by `tick_spacing * TICK_ARRAY_SIZE`. -/
def orca_swap_window (start0 tick_spacing : Int) (a_to_b : Bool) : List Int :=
  let arr_span := tick_spacing * ORCA_TICK_ARRAY_SIZE
  if a_to_b then [start0, start0 - arr_span, start0 - 2 * arr_span]
  else [start0, start0 + arr_span, start0 + 2 * arr_span]

/-- Embeds Orca `handle_swap` (`src/src/orca.rs` lines 119-219): amount
validation, whirlpool owner check, creation of missing ATAs under the
detected per-mint token program, and a single SwapV2 instruction
referencing the three-array window. -/
def orca_handle_swap_plan (whirlpool_program : Nat) (amount_in : Nat)
    (pool_owner : Nat) (mint_a_owner mint_b_owner : Nat)
    (ata_a_exists ata_b_exists : Bool)
    (start0 tick_spacing : Int) (a_to_b : Bool) : Except AsmErr (List PlanIx) :=
  if amount_in = 0 then .error .zeroAmountIn
  else if pool_owner ≠ whirlpool_program then .error .poolOwnerMismatch
  else
    .ok ((if ata_a_exists then [] else [.createAta (detect_token_program_for_mint mint_a_owner)])
      ++ (if ata_b_exists then [] else [.createAta (detect_token_program_for_mint mint_b_owner)])
      ++ [.swapIx (orca_swap_window start0 tick_spacing a_to_b)])

/-- Embeds the bin-array window loop of Meteora `handle_swap`
(`src/src/meteora.rs` lines 349-360): with `BIN_ARRAY_WINDOW = 3` the
`while` loop runs exactly once, so the referenced indices are the active
bin's array index followed by the indices for `active_id + 70` and
`active_id - 70`. -/
def meteora_swap_bin_array_indices (active_id : Int) : List Int :=
  [bin_array_index_for_bin_id active_id,
   bin_array_index_for_bin_id (active_id + BINS_PER_ARRAY),
   bin_array_index_for_bin_id (active_id - BINS_PER_ARRAY)]

/-- Embeds Meteora `handle_swap` (`src/src/meteora.rs` lines 303-394):
amount validation (no owner check — see C6), creation of missing ATAs
under the detected per-mint token program, and a single swap instruction
whose remaining accounts are the three-bin-array window. -/
def meteora_handle_swap_plan (amount_in : Nat)
    (mint_x_owner mint_y_owner : Nat) (ata_x_exists ata_y_exists : Bool)
    (active_id : Int) : Except AsmErr (List PlanIx) :=
  if amount_in = 0 then .error .zeroAmountIn
  else
    .ok ((if ata_x_exists then [] else [.createAta (detect_token_program_for_mint mint_x_owner)])
      ++ (if ata_y_exists then [] else [.createAta (detect_token_program_for_mint mint_y_owner)])
      ++ [.swapIx (meteora_swap_bin_array_indices active_id)])

/-- Embeds Raydium `handle_remove_all` (`src/src/raydium.rs` lines 273-466)
in source order: the personal-position owner check (line 289), the
zero-liquidity rejection (line 298), the pool owner check (line 304),
creation of missing ATAs under the normalized mint programs (lines
353-380), reward-ATA creation inside `reward_remaining_accounts` (one per
missing reward ATA, with that reward's token program, lines 252-265), the
DecreaseLiquidityV2 instruction (line 428), and a ClosePosition
instruction only when `--close` was passed (lines 434-449). -/
def raydium_handle_remove_plan (clmm_program : Nat) (position_owner : Nat)
    (liquidity : Nat) (pool_owner : Nat) (mint0_owner mint1_owner : Nat)
    (ata0_exists ata1_exists : Bool) (reward_ata_programs : List Nat)
    (close : Bool) : Except AsmErr (List PlanIx) :=
  if position_owner ≠ clmm_program then .error .positionOwnerMismatch
  else if liquidity = 0 then .error .zeroLiquidity
  else if pool_owner ≠ clmm_program then .error .poolOwnerMismatch
  else
    .ok ((if ata0_exists then [] else [.createAta (raydium_normalize_token_program mint0_owner)])
      ++ (if ata1_exists then [] else [.createAta (raydium_normalize_token_program mint1_owner)])
      ++ reward_ata_programs.map PlanIx.createAta
      ++ [.decLiquidity]
      ++ (if close then [.closePos] else []))

/-- Embeds Orca `handle_remove_all` (`src/src/orca.rs` lines 403-538): the
position account is decoded without an owner check, the position's
whirlpool must be owned by the Orca program (line 443), missing ATAs are
created, then — only if the position holds liquidity — a
DecreaseLiquidityV2 and a CollectFeesV2 instruction are appended (lines
469-523), and a ClosePosition instruction is appended unconditionally
(lines 526-535): the options argument carrying the `--close` flag is the
unused `_opts`. -/
def orca_handle_remove_plan (whirlpool_program : Nat) (pool_owner : Nat)
    (mint_a_owner mint_b_owner : Nat) (ata_a_exists ata_b_exists : Bool)
    (liquidity : Nat) (_close : Bool) : Except AsmErr (List PlanIx) :=
  if pool_owner ≠ whirlpool_program then .error .poolOwnerMismatch
  else
    .ok ((if ata_a_exists then [] else [.createAta (detect_token_program_for_mint mint_a_owner)])
      ++ (if ata_b_exists then [] else [.createAta (detect_token_program_for_mint mint_b_owner)])
      ++ (if 0 < liquidity then [.decLiquidity, .collectFees] else [])
      ++ [.closePos])

/-- Embeds Meteora `handle_remove_all` (`src/src/meteora.rs` lines
211-301): position and pair are decoded without owner checks, missing ATAs
are created, a RemoveAllLiquidity instruction is appended, and a
ClosePositionIfEmpty instruction is appended only when `--close` was
passed (lines 287-298). -/
def meteora_handle_remove_plan (mint_x_owner mint_y_owner : Nat)
    (ata_x_exists ata_y_exists : Bool) (close : Bool) : List PlanIx :=
  (if ata_x_exists then [] else [.createAta (detect_token_program_for_mint mint_x_owner)])
    ++ (if ata_y_exists then [] else [.createAta (detect_token_program_for_mint mint_y_owner)])
    ++ [.removeLiq]
    ++ (if close then [.closePos] else [])

/-- Errors of the Meteora open path, one constructor per bail site:
`badRange` is `src/src/meteora.rs` lines 103-105, `noAmount` lines
106-108. -/
inductive MetOpenErr
  | badRange
  | noAmount
deriving DecidableEq, Repr

/-- Embeds Meteora `handle_open` (`src/src/meteora.rs` lines 85-209):
after the range-order check (lines 103-105) and the both-amounts-zero
check (lines 106-108), the pair is fetched and decoded (no owner check —
see C6), missing ATAs are created under the detected per-mint token
program, and the InitializePosition and AddLiquidity instructions are
appended. The decoded pair's current price (`lb_pair.active_id`) is never
read on this path — the binder `_active_id` records that the value is
available from the decoded pair but unused — so no price-vs-range check
of the requested bin range is performed before assembling the deposit. -/
def meteora_handle_open_plan (req_lower req_upper : Int)
    (amount0 amount1 : Nat) (_active_id : Int)
    (mint_x_owner mint_y_owner : Nat) (ata_x_exists ata_y_exists : Bool) :
    Except MetOpenErr (List PlanIx) :=
  if req_upper < req_lower then .error .badRange
  else if amount0 = 0 ∧ amount1 = 0 then .error .noAmount
  else
    .ok ((if ata_x_exists then [] else [.createAta (detect_token_program_for_mint mint_x_owner)])
      ++ (if ata_y_exists then [] else [.createAta (detect_token_program_for_mint mint_y_owner)])
      ++ [.initPosition, .addLiquidity])

/-! ## Open-path validation order (C9) -/

/-- Externally observable steps of the open pipelines, in program order:
network reads, failing validations, address derivations and instruction
construction. -/
inductive OpenStep
  | netFetchPool
  | netFetchMint
  | netCheckAta
  | netFetchBalance
  | failBadRange
  | failNoAmount
  | failPoolOwner
  | failTickMultiple
  | deriveTickArrays
  | buildInstructions
deriving DecidableEq, Repr

/-- Embeds the control flow of Raydium `handle_open` (`src/src/raydium.rs`
lines 621-846) as an ordered step list: the range and amount validations
(lines 633-638) come first; the pool account fetch (line 640, a network
call) precedes the owner check and the ticks-multiple-of-spacing check
(lines 656-662); only if that check passes do the mint fetches, ATA
checks, balance reads, tick-array derivations (lines 741-748) and the
instruction construction follow. -/
def raydium_open_steps (lower upper : Int) (amount0 amount1 : Nat)
    (pool_owner clmm_program : Nat) (tick_spacing : Int) : List OpenStep :=
  if upper ≤ lower then [.failBadRange]
  else if amount0 = 0 ∧ amount1 = 0 then [.failNoAmount]
  else
    .netFetchPool ::
      (if pool_owner ≠ clmm_program then [.failPoolOwner]
       else if lower.tmod tick_spacing ≠ 0 ∨ upper.tmod tick_spacing ≠ 0 then
         [.failTickMultiple]
       else [.netFetchMint, .netFetchMint, .netCheckAta, .netCheckAta,
         .netFetchBalance, .netFetchBalance, .deriveTickArrays,
         .buildInstructions])

/-- Embeds the control flow of `run_open`
(`src/solana_liq_arb/src/open_cmd.rs` lines 28-162): the pool snapshot is
read first (a network fetch on a cache miss, line 45), the owner may be
re-fetched when the cached snapshot predates the program-id field (lines
47-51), then the tick bounds are checked for order (line 64) and for being
multiples of the tick spacing (lines 67-69); only after that are the
tick-array start indices and PDAs computed (lines 70-86), the mint owners
fetched (lines 89-90), and the transaction built. -/
def run_open_steps (cache_hit program_id_known : Bool)
    (t_lower t_upper : Int) (tick_spacing : Int) : List OpenStep :=
  (if cache_hit then [] else [.netFetchPool])
    ++ (if program_id_known then [] else [.netFetchPool])
    ++ (if t_upper ≤ t_lower then [.failBadRange]
        else if t_lower.tmod tick_spacing ≠ 0 ∨ t_upper.tmod tick_spacing ≠ 0 then
          [.failTickMultiple]
        else [.deriveTickArrays, .netFetchMint, .netFetchMint,
          .buildInstructions])

/-- Key arithmetic fact: the Rust truncating-division-with-negative-fixup
pattern used by `tick_array_start_index` computes the floor multiple
`b * (a / b)` (Euclidean division, which is floor for positive `b`). -/
theorem tdiv_fixup_eq_ediv_mul (a : Int) {b : Int} (hb : 0 < b) :
    (if a < 0 ∧ a.tmod b ≠ 0 then a.tdiv b * b - b else a.tdiv b * b)
      = b * (a / b) := by
  have hbne : b ≠ 0 := ne_of_gt hb
  have hqr : b * a.tdiv b + a.tmod b = a := Int.tdiv_add_tmod a b
  rcases le_or_lt 0 a with ha | ha
  · have hcond : ¬(a < 0 ∧ a.tmod b ≠ 0) := by
      intro h
      exact absurd ha (not_le.mpr h.1)
    rw [if_neg hcond]
    have h1 : a.tdiv b = a / b := Int.tdiv_eq_ediv ha (le_of_lt hb)
    rw [h1, mul_comm]
  · -- a < 0: write a = -m with 0 < m and express tdiv/tmod through m
    have hm : 0 < -a := by omega
    have htd : a.tdiv b = -((-a).tdiv b) := by
      rw [show a = -(-a) by ring, Int.neg_tdiv, neg_neg, Int.neg_tdiv]
    have htdnn : (-a).tdiv b = -a / b := Int.tdiv_eq_ediv (by omega) (le_of_lt hb)
    have htm : a.tmod b = -((-a).tmod b) := by
      rw [Int.tmod_def, Int.tmod_def, Int.neg_tdiv]
      ring
    have hmod_nonneg : 0 ≤ (-a).tmod b := Int.tmod_nonneg b (by omega)
    have hmod_lt : (-a).tmod b < b := Int.tmod_lt_of_pos (-a) hb
    by_cases hz : a.tmod b = 0
    · have hcond : ¬(a < 0 ∧ a.tmod b ≠ 0) := by
        intro h
        exact h.2 hz
      rw [if_neg hcond]
      have : a / b = a.tdiv b ∧ a % b = 0 := by
        rw [Int.ediv_emod_unique hb]
        refine ⟨?_, le_refl 0, hb⟩
        omega
      rw [this.1, mul_comm]
    · have hcond : a < 0 ∧ a.tmod b ≠ 0 := ⟨ha, hz⟩
      rw [if_pos hcond]
      have hmneg : a.tmod b < 0 := by
        rcases lt_or_eq_of_le hmod_nonneg with h | h
        · omega
        · exfalso
          exact hz (by omega)
      have : a / b = a.tdiv b - 1 ∧ a % b = a.tmod b + b := by
        rw [Int.ediv_emod_unique hb]
        refine ⟨?_, by omega, by omega⟩
        have : b * (a.tdiv b - 1) = b * a.tdiv b - b := by ring
        omega
      rw [this.1]
      ring

/-- Floor form of `tick_array_start_index`: it equals `size * (tick / size)`
with Euclidean (floor-for-positive-divisor) division. -/
theorem tick_array_start_index_eq_floor (tick : Int) {ts : Int} (hts : 0 < ts) :
    tick_array_start_index tick ts = (60 * ts) * (tick / (60 * ts)) := by
  have hb : (0 : Int) < 60 * ts := by positivity
  unfold tick_array_start_index TICK_ARRAY_SIZE
  exact tdiv_fixup_eq_ediv_mul tick hb

/-- Floor form of the Meteora bin-array index: it is `bin_id / 70` with
Euclidean division. -/
theorem bin_array_index_eq_floor (bin_id : Int) :
    bin_array_index_for_bin_id bin_id = bin_id / 70 := by
  unfold bin_array_index_for_bin_id BINS_PER_ARRAY
  by_cases h : bin_id ≥ 0
  · rw [if_pos h]
    exact Int.tdiv_eq_ediv h (by norm_num)
  · rw [if_neg h]
    have h1 : bin_id - (70 - 1) = -((70 - 1) - bin_id) := by ring
    rw [h1, Int.neg_tdiv, Int.tdiv_eq_ediv (by omega) (by norm_num)]
    omega

/-- C1: for every index and every positive tick spacing, the Raydium group
start `tick_array_start_index` (span `60 * ts`) and the Meteora group start
implied by `bin_array_index_for_bin_id` (span 70) satisfy
`start ≤ i < start + span`, are idempotent, and round toward negative
infinity (index −1 maps to `−span`, e.g. −70 for span 70, not 0). -/
theorem C1_group_start_floor_correct (tick : Int) (ts : Int) (hts : 0 < ts) :
    (tick_array_start_index tick ts ≤ tick ∧
      tick < tick_array_start_index tick ts + 60 * ts) ∧
    tick_array_start_index (tick_array_start_index tick ts) ts
      = tick_array_start_index tick ts ∧
    (meteora_bin_array_start tick ≤ tick ∧
      tick < meteora_bin_array_start tick + 70) ∧
    meteora_bin_array_start (meteora_bin_array_start tick)
      = meteora_bin_array_start tick ∧
    meteora_bin_array_start (-1) = -70 ∧
    tick_array_start_index (-1) ts = -(60 * ts) := by
  have hb : (0 : Int) < 60 * ts := by positivity
  have hbne : (60 * ts : Int) ≠ 0 := ne_of_gt hb
  have he := Int.ediv_add_emod tick (60 * ts)
  have h0 := Int.emod_nonneg tick hbne
  have h1 := Int.emod_lt_of_pos tick hb
  refine ⟨⟨?_, ?_⟩, ?_, ⟨?_, ?_⟩, ?_, ?_, ?_⟩
  · rw [tick_array_start_index_eq_floor tick hts]
    linarith
  · rw [tick_array_start_index_eq_floor tick hts]
    linarith
  · rw [tick_array_start_index_eq_floor tick hts,
      tick_array_start_index_eq_floor _ hts,
      Int.mul_ediv_cancel_left _ hbne]
  · unfold meteora_bin_array_start BINS_PER_ARRAY
    rw [bin_array_index_eq_floor]
    omega
  · unfold meteora_bin_array_start BINS_PER_ARRAY
    rw [bin_array_index_eq_floor]
    omega
  · unfold meteora_bin_array_start BINS_PER_ARRAY
    rw [bin_array_index_eq_floor, bin_array_index_eq_floor]
    omega
  · unfold meteora_bin_array_start BINS_PER_ARRAY
    rw [bin_array_index_eq_floor]
    decide
  · have hneg : (-1 : Int) / (60 * ts) = -1 ∧ (-1 : Int) % (60 * ts) = 60 * ts - 1 := by
      rw [Int.ediv_emod_unique hb]
      refine ⟨by ring, by linarith, by linarith⟩
    rw [tick_array_start_index_eq_floor _ hts, hneg.1]
    ring

/-- Witness for C1 at tick 5, tick spacing 1. -/
theorem C1_group_start_floor_correct_witness :
    (0 : Int) < 1 ∧
    ((tick_array_start_index 5 1 ≤ 5 ∧
      5 < tick_array_start_index 5 1 + 60 * 1) ∧
    tick_array_start_index (tick_array_start_index 5 1) 1
      = tick_array_start_index 5 1 ∧
    (meteora_bin_array_start 5 ≤ 5 ∧
      5 < meteora_bin_array_start 5 + 70) ∧
    meteora_bin_array_start (meteora_bin_array_start 5)
      = meteora_bin_array_start 5 ∧
    meteora_bin_array_start (-1) = -70 ∧
    tick_array_start_index (-1) 1 = -(60 * 1)) :=
  ⟨by norm_num, C1_group_start_floor_correct 5 1 (by norm_num)⟩

/-- C2: evaluation at the failing input, start index 1 on the all-zero pool
key. The Raydium backend's tick-array seed encodes 1 big-endian as
`[0,0,0,1]` and the Meteora bin-array seed encodes 1 little-endian as
`[1,0,0,0,0,0,0,0]`, as the claim states; but `tick_array_pda` in
`open_cmd.rs` encodes the same start index little-endian as `[1,0,0,0]`,
so its seed list differs from the big-endian derivation used by
`raydium.rs` — refuting the part of the claim that says every tick-array
derivation in the repository uses the big-endian encoding. -/
theorem C2_endianness_failing_input :
    derive_tick_array_pda_seeds (List.replicate 32 0) 1
      = [TICK_ARRAY_SEED, List.replicate 32 0, [0, 0, 0, 1]] ∧
    derive_bin_array_address_seeds (List.replicate 32 0) 1
      = [BIN_ARRAY_SEED, List.replicate 32 0, [1, 0, 0, 0, 0, 0, 0, 0]] ∧
    open_cmd_tick_array_pda_seeds (List.replicate 32 0) 1
      = [TICK_ARRAY_SEED, List.replicate 32 0, [1, 0, 0, 0]] ∧
    open_cmd_tick_array_pda_seeds (List.replicate 32 0) 1
      ≠ derive_tick_array_pda_seeds (List.replicate 32 0) 1 := by
  refine ⟨?_, ?_, ?_, ?_⟩ <;> decide

/-- A 64-bit natural number is determined by its eight base-256 digits. -/
theorem bytes_inj_nat {m n : Nat}
    (hm : m < 18446744073709551616) (hn : n < 18446744073709551616)
    (h0 : m % 256 = n % 256)
    (h1 : m / 256 % 256 = n / 256 % 256)
    (h2 : m / 65536 % 256 = n / 65536 % 256)
    (h3 : m / 16777216 % 256 = n / 16777216 % 256)
    (h4 : m / 4294967296 % 256 = n / 4294967296 % 256)
    (h5 : m / 1099511627776 % 256 = n / 1099511627776 % 256)
    (h6 : m / 281474976710656 % 256 = n / 281474976710656 % 256)
    (h7 : m / 72057594037927936 % 256 = n / 72057594037927936 % 256) :
    m = n := by
  have e : ∀ x y : Nat, x / 256 = y / 256 → x % 256 = y % 256 → x = y := by
    intro x y hxy hmod
    omega
  have d7 : m / 72057594037927936 = n / 72057594037927936 := by
    have hx : m / 72057594037927936 < 256 := by omega
    have hy : n / 72057594037927936 < 256 := by omega
    omega
  have d6 : m / 281474976710656 = n / 281474976710656 := by
    refine e _ _ ?_ h6
    rw [Nat.div_div_eq_div_mul, Nat.div_div_eq_div_mul]
    norm_num
    exact d7
  have d5 : m / 1099511627776 = n / 1099511627776 := by
    refine e _ _ ?_ h5
    rw [Nat.div_div_eq_div_mul, Nat.div_div_eq_div_mul]
    norm_num
    exact d6
  have d4 : m / 4294967296 = n / 4294967296 := by
    refine e _ _ ?_ h4
    rw [Nat.div_div_eq_div_mul, Nat.div_div_eq_div_mul]
    norm_num
    exact d5
  have d3 : m / 16777216 = n / 16777216 := by
    refine e _ _ ?_ h3
    rw [Nat.div_div_eq_div_mul, Nat.div_div_eq_div_mul]
    norm_num
    exact d4
  have d2 : m / 65536 = n / 65536 := by
    refine e _ _ ?_ h2
    rw [Nat.div_div_eq_div_mul, Nat.div_div_eq_div_mul]
    norm_num
    exact d3
  have d1 : m / 256 = n / 256 := by
    refine e _ _ ?_ h1
    rw [Nat.div_div_eq_div_mul, Nat.div_div_eq_div_mul]
    norm_num
    exact d2
  exact e _ _ d1 h0

/-- Injectivity of the little-endian `i64` encoding on the `i64` range. -/
theorem i64_to_le_bytes_inj {a b : Int}
    (ha1 : -(2 ^ 63) ≤ a) (ha2 : a < 2 ^ 63)
    (hb1 : -(2 ^ 63) ≤ b) (hb2 : b < 2 ^ 63)
    (h : i64_to_le_bytes a = i64_to_le_bytes b) : a = b := by
  simp only [i64_to_le_bytes, natByte, List.cons.injEq, and_true] at h
  norm_num at h
  obtain ⟨h0, h1, h2, h3, h4, h5, h6, h7⟩ := h
  have hmb : toU64 a < 18446744073709551616 := by
    unfold toU64
    omega
  have hnb : toU64 b < 18446744073709551616 := by
    unfold toU64
    omega
  have key : toU64 a = toU64 b := bytes_inj_nat hmb hnb h0 h1 h2 h3 h4 h5 h6 h7
  unfold toU64 at key
  omega

/-- C3: perturbation invariant for Meteora open/remove. For every bin range
with `lower ≤ upper` (`i32` bin ids): the lower group index is taken from
the lower bin id; when both endpoints map to the same bin-array index the
upper address is derived at group index `lower_index + 1`; the two group
indices, and hence the two derived bin-array seed lists, are always
distinct; and the position-initialization arguments still carry the
original lower bin id and the original width `upper - lower + 1`. -/
theorem C3_perturbation_invariant (lower upper : Int) (lb_pair : Bytes)
    (hl : -(2 ^ 31) ≤ lower) (hlu : lower ≤ upper) (hu : upper < 2 ^ 31) :
    (meteora_bin_array_pair_indices lower upper).1
      = bin_array_index_for_bin_id lower ∧
    (bin_array_index_for_bin_id lower = bin_array_index_for_bin_id upper →
      (meteora_bin_array_pair_indices lower upper).2
        = bin_array_index_for_bin_id lower + 1) ∧
    (meteora_bin_array_pair_indices lower upper).1
      ≠ (meteora_bin_array_pair_indices lower upper).2 ∧
    derive_bin_array_address_seeds lb_pair
        (meteora_bin_array_pair_indices lower upper).1
      ≠ derive_bin_array_address_seeds lb_pair
        (meteora_bin_array_pair_indices lower upper).2 ∧
    meteora_init_position_args lower upper
      = { lower_bin_id := lower, width := upper - lower + 1 } := by
  have hfl := bin_array_index_eq_floor lower
  have hfu := bin_array_index_eq_floor upper
  have hbl : -(2 ^ 63) ≤ bin_array_index_for_bin_id lower ∧
      bin_array_index_for_bin_id lower + 1 < 2 ^ 63 ∧
      -(2 ^ 63) ≤ bin_array_index_for_bin_id upper ∧
      bin_array_index_for_bin_id upper < 2 ^ 63 := by
    rw [hfl, hfu]
    omega
  by_cases hc : bin_array_index_for_bin_id lower = bin_array_index_for_bin_id upper
  · have hp : meteora_bin_array_pair_indices lower upper
        = (bin_array_index_for_bin_id lower, bin_array_index_for_bin_id lower + 1) := by
      simp only [meteora_bin_array_pair_indices]
      rw [if_pos hc]
    rw [hp]
    refine ⟨rfl, fun _ => rfl, by simp, ?_, rfl⟩
    intro hseed
    simp only [derive_bin_array_address_seeds, List.cons.injEq, and_true, true_and] at hseed
    have := i64_to_le_bytes_inj hbl.1 (by omega) (by omega) hbl.2.1 hseed
    omega
  · have hp : meteora_bin_array_pair_indices lower upper
        = (bin_array_index_for_bin_id lower, bin_array_index_for_bin_id upper) := by
      simp only [meteora_bin_array_pair_indices]
      rw [if_neg hc]
    rw [hp]
    refine ⟨rfl, fun h => absurd h hc, hc, ?_, rfl⟩
    intro hseed
    simp only [derive_bin_array_address_seeds, List.cons.injEq, and_true, true_and] at hseed
    exact hc (i64_to_le_bytes_inj hbl.1 (by omega) hbl.2.2.1 hbl.2.2.2 hseed)

/-- Witness for C3 at the spec's scenario, bin ids 5 and 10 (both in
bin-array group 0) with the all-empty pool key. -/
theorem C3_perturbation_invariant_witness :
    (-(2 ^ 31) ≤ (5 : Int) ∧ (5 : Int) ≤ 10 ∧ (10 : Int) < 2 ^ 31) ∧
    ((meteora_bin_array_pair_indices 5 10).1
      = bin_array_index_for_bin_id 5 ∧
    (bin_array_index_for_bin_id 5 = bin_array_index_for_bin_id 10 →
      (meteora_bin_array_pair_indices 5 10).2
        = bin_array_index_for_bin_id 5 + 1) ∧
    (meteora_bin_array_pair_indices 5 10).1
      ≠ (meteora_bin_array_pair_indices 5 10).2 ∧
    derive_bin_array_address_seeds []
        (meteora_bin_array_pair_indices 5 10).1
      ≠ derive_bin_array_address_seeds []
        (meteora_bin_array_pair_indices 5 10).2 ∧
    meteora_init_position_args 5 10
      = { lower_bin_id := 5, width := 10 - 5 + 1 }) :=
  ⟨by norm_num,
    C3_perturbation_invariant 5 10 [] (by norm_num) (by norm_num) (by norm_num)⟩

/-- C4 counterexample: the Meteora open path performs no price-vs-range
check. With a token-X-only budget of 1000000000 and the requested bin
range [5, 10] while the pair's active bin is 1000 — the current price far
above the top of the range — assembly succeeds and builds the
position-initialization and deposit instructions instead of failing with
the needs-the-other-token condition, and the outcome is identical when
the active bin lies inside the range: the claimed failure does not hold
on every backend's open path. -/
theorem C4_one_sided_quote_counterexample :
    meteora_handle_open_plan 5 10 1000000000 0 1000 1 1 true true
      = .ok [.initPosition, .addLiquidity] ∧
    meteora_handle_open_plan 5 10 1000000000 0 1000 1 1 true true
      = meteora_handle_open_plan 5 10 1000000000 0 7 1 1 true true :=
  ⟨rfl, rfl⟩

/-- C4 (amended): one-sided quoting failure on the quoting backends. On
the Raydium open path a token0-only budget with the current sqrt price at
or above the top of the range fails with the above-range error, returning
no liquidity value, for every behavior of the external liquidity
functions; symmetrically a token1-only budget with the price at or below
the bottom fails with the below-range error. On the Orca open path, with
the single-sided quoter modelled from the spec, the same two situations
fail with the needs-the-other-token error. The Meteora open path performs
no such check: with a token-X-only budget it assembles the
position-initialization and deposit instructions whatever the pair's
active bin is. -/
theorem C4_one_sided_quote_fails
    (getL0 getL1 : Nat → Nat → Nat → Nat → Nat)
    (getLA : Nat → Nat → Nat → Nat → Nat → Nat)
    (computeA computeB : Nat → Nat → Nat → Nat → OrcaQuote)
    (sqrt_cur sqrt_a sqrt_b sqrt_lo sqrt_hi amount0 amount1 : Nat)
    (req_lower req_upper active_id active_id2 : Int)
    (mx my : Nat) (ax ay : Bool)
    (h0 : 0 < amount0) (h1 : 0 < amount1) (hrange : req_lower ≤ req_upper) :
    (sqrt_cur ≥ max sqrt_a sqrt_b →
      raydium_open_quote getL0 getL1 getLA sqrt_cur sqrt_a sqrt_b amount0 0
        = .error .aboveRange) ∧
    (sqrt_cur ≤ min sqrt_a sqrt_b →
      raydium_open_quote getL0 getL1 getLA sqrt_cur sqrt_a sqrt_b 0 amount1
        = .error .belowRange) ∧
    (sqrt_cur ≥ sqrt_hi →
      orca_open_quote
        (fun amt => spec_increase_liquidity_quote_a computeA amt sqrt_cur sqrt_lo sqrt_hi)
        (fun amt => spec_increase_liquidity_quote_b computeB amt sqrt_cur sqrt_lo sqrt_hi)
        amount0 0 = .error .needsOtherToken) ∧
    (sqrt_cur ≤ sqrt_lo →
      orca_open_quote
        (fun amt => spec_increase_liquidity_quote_a computeA amt sqrt_cur sqrt_lo sqrt_hi)
        (fun amt => spec_increase_liquidity_quote_b computeB amt sqrt_cur sqrt_lo sqrt_hi)
        0 amount1 = .error .needsOtherToken) ∧
    meteora_handle_open_plan req_lower req_upper amount0 0 active_id mx my ax ay
      = .ok ((if ax then [] else [.createAta (detect_token_program_for_mint mx)])
        ++ (if ay then [] else [.createAta (detect_token_program_for_mint my)])
        ++ [.initPosition, .addLiquidity]) ∧
    meteora_handle_open_plan req_lower req_upper amount0 0 active_id mx my ax ay
      = meteora_handle_open_plan req_lower req_upper amount0 0 active_id2 mx my ax ay := by
  have hne0 : amount0 ≠ 0 := Nat.pos_iff_ne_zero.mp h0
  refine ⟨?_, ?_, ?_, ?_, ?_, ?_⟩
  · intro hcur
    simp [raydium_open_quote, h0, hcur]
  · intro hcur
    simp [raydium_open_quote, h1, hcur]
  · intro hcur
    simp [orca_open_quote, spec_increase_liquidity_quote_a, h0, hcur]
  · intro hcur
    simp [orca_open_quote, spec_increase_liquidity_quote_b, h1, hcur]
  · unfold meteora_handle_open_plan
    rw [if_neg (by omega), if_neg (by simp [hne0])]
  · rfl

/-- Witness for C4 (amended): concrete runs of the three backends' open
paths, with a budget of 7 on one side only, ranges strictly above / below
the current price for Raydium and Orca, and the Meteora bin range [5, 10]
assembled identically under active bins 1000 and 7. -/
theorem C4_one_sided_quote_fails_witness :
    raydium_open_quote (fun _ _ _ _ => 1) (fun _ _ _ _ => 1) (fun _ _ _ _ _ => 1)
        10 3 5 7 0 = .error .aboveRange ∧
    raydium_open_quote (fun _ _ _ _ => 1) (fun _ _ _ _ => 1) (fun _ _ _ _ _ => 1)
        1 3 5 0 7 = .error .belowRange ∧
    orca_open_quote
      (fun amt => spec_increase_liquidity_quote_a (fun _ _ _ _ => ⟨1, 1, 1⟩) amt 10 3 5)
      (fun amt => spec_increase_liquidity_quote_b (fun _ _ _ _ => ⟨1, 1, 1⟩) amt 10 3 5)
      7 0 = .error .needsOtherToken ∧
    orca_open_quote
      (fun amt => spec_increase_liquidity_quote_a (fun _ _ _ _ => ⟨1, 1, 1⟩) amt 1 3 5)
      (fun amt => spec_increase_liquidity_quote_b (fun _ _ _ _ => ⟨1, 1, 1⟩) amt 1 3 5)
      0 7 = .error .needsOtherToken ∧
    meteora_handle_open_plan 5 10 7 0 1000 1 1 true true
      = .ok [.initPosition, .addLiquidity] ∧
    meteora_handle_open_plan 5 10 7 0 1000 1 1 true true
      = meteora_handle_open_plan 5 10 7 0 7 1 1 true true :=
  ⟨(C4_one_sided_quote_fails (fun _ _ _ _ => 1) (fun _ _ _ _ => 1) (fun _ _ _ _ _ => 1)
      (fun _ _ _ _ => ⟨1, 1, 1⟩) (fun _ _ _ _ => ⟨1, 1, 1⟩)
      10 3 5 3 5 7 7 5 10 1000 7 1 1 true true
      (by norm_num) (by norm_num) (by norm_num)).1 (by decide),
   (C4_one_sided_quote_fails (fun _ _ _ _ => 1) (fun _ _ _ _ => 1) (fun _ _ _ _ _ => 1)
      (fun _ _ _ _ => ⟨1, 1, 1⟩) (fun _ _ _ _ => ⟨1, 1, 1⟩)
      1 3 5 3 5 7 7 5 10 1000 7 1 1 true true
      (by norm_num) (by norm_num) (by norm_num)).2.1 (by decide),
   (C4_one_sided_quote_fails (fun _ _ _ _ => 1) (fun _ _ _ _ => 1) (fun _ _ _ _ _ => 1)
      (fun _ _ _ _ => ⟨1, 1, 1⟩) (fun _ _ _ _ => ⟨1, 1, 1⟩)
      10 3 5 3 5 7 7 5 10 1000 7 1 1 true true
      (by norm_num) (by norm_num) (by norm_num)).2.2.1 (by decide),
   (C4_one_sided_quote_fails (fun _ _ _ _ => 1) (fun _ _ _ _ => 1) (fun _ _ _ _ _ => 1)
      (fun _ _ _ _ => ⟨1, 1, 1⟩) (fun _ _ _ _ => ⟨1, 1, 1⟩)
      1 3 5 3 5 7 7 5 10 1000 7 1 1 true true
      (by norm_num) (by norm_num) (by norm_num)).2.2.2.1 (by decide),
   (C4_one_sided_quote_fails (fun _ _ _ _ => 1) (fun _ _ _ _ => 1) (fun _ _ _ _ _ => 1)
      (fun _ _ _ _ => ⟨1, 1, 1⟩) (fun _ _ _ _ => ⟨1, 1, 1⟩)
      10 3 5 3 5 7 7 5 10 1000 7 1 1 true true
      (by norm_num) (by norm_num) (by norm_num)).2.2.2.2.1,
   (C4_one_sided_quote_fails (fun _ _ _ _ => 1) (fun _ _ _ _ => 1) (fun _ _ _ _ _ => 1)
      (fun _ _ _ _ => ⟨1, 1, 1⟩) (fun _ _ _ _ => ⟨1, 1, 1⟩)
      10 3 5 3 5 7 7 5 10 1000 7 1 1 true true
      (by norm_num) (by norm_num) (by norm_num)).2.2.2.2.2⟩

/-- C5 counterexample: the Raydium open path violates the claimed two-sided
algorithm. With both budgets nonzero (7 and 7) and the external
two-sided liquidity function returning 0 (which the library does for
amounts too small for the range — the very case the claim is about), the
path fails with the zero-liquidity error, which carries no maxima; so not
every failure of a two-sided open reports the two computed maxima. -/
theorem C5_two_sided_quote_counterexample : ¬ C5_claim_on_raydium := by
  intro h
  obtain ⟨m0, m1, hm⟩ := h (fun _ _ _ _ => 0) (fun _ _ _ _ => 0) (fun _ _ _ _ _ => 0)
    5 1 10 7 7 .zeroLiquidity (by norm_num) (by norm_num) rfl
  cases hm

/-- C5 (amended): with both budgets nonzero, the Orca open path follows
exactly the claimed algorithm — token0-driven quote first, accepted when
its token1 requirement is within budget, else the token1-driven quote,
accepted when its token0 requirement is within budget, else failure
reporting both computed maxima — while the Raydium open path computes a
single liquidity value from both budgets in one external library call and
fails only when that value is zero, reporting no maxima. -/
theorem C5_two_sided_quote
    (quoteA quoteB : Nat → Except OpenQuoteErr OrcaQuote)
    (quote_a quote_b : OrcaQuote)
    (getL0 getL1 : Nat → Nat → Nat → Nat → Nat)
    (getLA : Nat → Nat → Nat → Nat → Nat → Nat)
    (sqrt_cur sqrt_a sqrt_b amount0 amount1 : Nat)
    (h0 : 0 < amount0) (h1 : 0 < amount1)
    (hqa : quoteA amount0 = .ok quote_a) (hqb : quoteB amount1 = .ok quote_b) :
    (quote_a.token_max_b ≤ amount1 →
      orca_open_quote quoteA quoteB amount0 amount1 = .ok quote_a) ∧
    (¬ quote_a.token_max_b ≤ amount1 → quote_b.token_max_a ≤ amount0 →
      orca_open_quote quoteA quoteB amount0 amount1 = .ok quote_b) ∧
    (¬ quote_a.token_max_b ≤ amount1 → ¬ quote_b.token_max_a ≤ amount0 →
      orca_open_quote quoteA quoteB amount0 amount1
        = .error (.amountsTooLow quote_b.token_max_a quote_a.token_max_b)) ∧
    raydium_open_quote getL0 getL1 getLA sqrt_cur sqrt_a sqrt_b amount0 amount1
      = (if getLA sqrt_cur (min sqrt_a sqrt_b) (max sqrt_a sqrt_b) amount0 amount1 = 0
          then .error .zeroLiquidity
          else .ok (getLA sqrt_cur (min sqrt_a sqrt_b) (max sqrt_a sqrt_b) amount0 amount1)) := by
  have hne0 : amount0 ≠ 0 := Nat.pos_iff_ne_zero.mp h0
  have hne1 : amount1 ≠ 0 := Nat.pos_iff_ne_zero.mp h1
  refine ⟨?_, ?_, ?_, ?_⟩
  · intro hle
    simp [orca_open_quote, hne0, hne1, hqa, hle]
  · intro hgt hle
    simp [orca_open_quote, hne0, hne1, hqa, hqb, hgt, hle]
  · intro hgt1 hgt2
    simp [orca_open_quote, hne0, hne1, hqa, hqb, hgt1, hgt2]
  · simp [raydium_open_quote, hne0, hne1]

/-- Witness for C5 (amended) at budgets 7/7: the token0-driven quote fits
the token1 budget and is accepted on the Orca path, and the Raydium path
returns the single library-computed liquidity value 42. -/
theorem C5_two_sided_quote_witness :
    orca_open_quote (fun _ => .ok ⟨11, 3, 4⟩) (fun _ => .ok ⟨9, 2, 5⟩) 7 7
      = .ok ⟨11, 3, 4⟩ ∧
    raydium_open_quote (fun _ _ _ _ => 1) (fun _ _ _ _ => 1) (fun _ _ _ _ _ => 42)
        5 1 10 7 7
      = (if (42 : Nat) = 0 then Except.error OpenQuoteErr.zeroLiquidity
          else .ok 42) :=
  ⟨(C5_two_sided_quote (fun _ => .ok ⟨11, 3, 4⟩) (fun _ => .ok ⟨9, 2, 5⟩)
      ⟨11, 3, 4⟩ ⟨9, 2, 5⟩ (fun _ _ _ _ => 1) (fun _ _ _ _ => 1) (fun _ _ _ _ _ => 42)
      5 1 10 7 7 (by norm_num) (by norm_num) rfl rfl).1 (by decide),
   (C5_two_sided_quote (fun _ => .ok ⟨11, 3, 4⟩) (fun _ => .ok ⟨9, 2, 5⟩)
      ⟨11, 3, 4⟩ ⟨9, 2, 5⟩ (fun _ _ _ _ => 1) (fun _ _ _ _ => 1) (fun _ _ _ _ _ => 42)
      5 1 10 7 7 (by norm_num) (by norm_num) rfl rfl).2.2.2⟩

/-- C6 counterexample: not every pool/position fetch rejects an account
owned by an unexpected program. The Meteora LbPair fetch and the Orca
position fetch accept the same buffer under two different owners (0 and
1); whichever program the backend expects, at least one of these two
accepted accounts is owned by a different program, so the wrong-owner
rejection claimed for all three backends does not hold. -/
theorem C6_decode_integrity_counterexample :
    meteora_fetch_lb_pair (fun _ => some 0) ⟨0, []⟩ = .ok 0 ∧
    meteora_fetch_lb_pair (fun _ => some 0) ⟨1, []⟩ = .ok 0 ∧
    (0 : Nat) ≠ 1 ∧
    orca_fetch_position 0 (fun _ => some 0) ⟨0, []⟩ = .ok 0 ∧
    orca_fetch_position 0 (fun _ => some 0) ⟨1, []⟩ = .ok 0 :=
  ⟨rfl, rfl, by norm_num, rfl, rfl⟩

/-- C6 (amended): the in-repo decoders reject buffers whose length differs
from the backend's fixed record size (Orca `decode_whirlpool` and
`decode_position`), and the owner integrity check holds on the Orca
whirlpool fetches and on the Raydium pool and personal-position fetches;
the Meteora fetches and the Orca position fetch decode without inspecting
the account owner (their result depends only on the data buffer). -/
theorem C6_decode_integrity (α : Type) (LEN program_id clmm owner2 : Nat)
    (parse : Bytes → Option α) (decode : Bytes → Option α) (acc : AccountRec) :
    (acc.data.length ≠ LEN →
      decode_whirlpool LEN parse acc.data
        = .error "whirlpool account length mismatch") ∧
    (acc.data.length ≠ LEN →
      decode_position LEN parse acc.data
        = .error "position account length mismatch") ∧
    (acc.owner ≠ program_id →
      orca_fetch_whirlpool program_id LEN parse acc
        = .error "pool account owner mismatch") ∧
    (acc.owner ≠ clmm →
      raydium_fetch_personal_position clmm decode acc
        = .error "personal_position account owner mismatch") ∧
    (acc.owner ≠ clmm →
      raydium_fetch_pool clmm decode acc
        = .error "pool account owner mismatch") ∧
    meteora_fetch_lb_pair parse ⟨owner2, acc.data⟩
      = meteora_fetch_lb_pair parse acc ∧
    orca_fetch_position LEN parse ⟨owner2, acc.data⟩
      = orca_fetch_position LEN parse acc := by
  refine ⟨?_, ?_, ?_, ?_, ?_, rfl, rfl⟩
  · intro h
    simp [decode_whirlpool, h]
  · intro h
    simp [decode_position, h]
  · intro h
    simp [orca_fetch_whirlpool, h]
  · intro h
    simp [raydium_fetch_personal_position, h]
  · intro h
    simp [raydium_fetch_pool, h]

/-- Witness for C6 at a concrete account of length 0 and owner 3 with
expected program 7 and record size 2. -/
theorem C6_decode_integrity_witness :
    decode_whirlpool 2 (fun _ => some 0) ([] : Bytes)
      = .error "whirlpool account length mismatch" ∧
    decode_position 2 (fun _ => some 0) ([] : Bytes)
      = .error "position account length mismatch" ∧
    orca_fetch_whirlpool 7 2 (fun _ => some 0) ⟨3, []⟩
      = .error "pool account owner mismatch" ∧
    raydium_fetch_personal_position 7 (fun _ => some 0) ⟨3, []⟩
      = .error "personal_position account owner mismatch" ∧
    raydium_fetch_pool 7 (fun _ => some 0) ⟨3, []⟩
      = .error "pool account owner mismatch" := by
  have h := C6_decode_integrity Nat 2 7 7 9 (fun _ => some 0) (fun _ => some 0) ⟨3, []⟩
  exact ⟨h.1 (by norm_num), h.2.1 (by norm_num), h.2.2.1 (by norm_num),
    h.2.2.2.1 (by norm_num), h.2.2.2.2.1 (by norm_num)⟩

/-- C7 counterexample: a concrete successful Raydium swap assembly. The
plan contains exactly one swap instruction, but that instruction
references only the single tick array containing the current tick — its
group list is the one-element list `[0]`, with no neighboring group —
contradicting the claim that on every backend the swap instruction
references neighboring groups along the swap direction. -/
theorem C7_swap_window_counterexample :
    raydium_handle_swap_plan 9 5 9 SPL_TOKEN_PROGRAM SPL_TOKEN_PROGRAM true true 0 1
      = .ok [.swapIx [tick_array_start_index 0 1]] ∧
    [tick_array_start_index 0 1] = [(0 : Int)] :=
  ⟨rfl, rfl⟩

/-- C7 (amended): every successful swap assembly appends exactly one swap
instruction. On Orca it references the current tick-array start plus two
neighboring starts in the swap direction (three pairwise distinct groups);
on Meteora it references the active bin-array index together with both
neighboring indices; on Raydium it references only the single tick array
containing the current tick. -/
theorem C7_swap_window
    (clmm whirl : Nat) (amount_in : Nat) (in_owner out_owner ma mb mx my : Nat)
    (a1 a2 a3 a4 a5 a6 : Bool) (tick_current tick_spacing start0 active_id : Int)
    (a_to_b : Bool) (plan_r plan_o plan_m : List PlanIx)
    (hsp : 0 < tick_spacing)
    (hr : raydium_handle_swap_plan clmm amount_in clmm in_owner out_owner a1 a2
        tick_current tick_spacing = .ok plan_r)
    (ho : orca_handle_swap_plan whirl amount_in whirl ma mb a3 a4 start0
        tick_spacing a_to_b = .ok plan_o)
    (hm : meteora_handle_swap_plan amount_in mx my a5 a6 active_id = .ok plan_m) :
    swap_ix_groups plan_r = [[tick_array_start_index tick_current tick_spacing]] ∧
    swap_ix_groups plan_o = [orca_swap_window start0 tick_spacing a_to_b] ∧
    swap_ix_groups plan_m = [meteora_swap_bin_array_indices active_id] ∧
    meteora_swap_bin_array_indices active_id
      = [bin_array_index_for_bin_id active_id,
         bin_array_index_for_bin_id active_id + 1,
         bin_array_index_for_bin_id active_id - 1] ∧
    (orca_swap_window start0 tick_spacing a_to_b).Nodup ∧
    (orca_swap_window start0 tick_spacing a_to_b).length = 3 := by
  refine ⟨?_, ?_, ?_, ?_, ?_, ?_⟩
  · unfold raydium_handle_swap_plan at hr
    split at hr
    · exact absurd hr (by simp)
    split at hr
    · exact absurd hr (by simp)
    split at hr
    · exact absurd hr (by simp)
    injection hr with h
    subst h
    cases a1 <;> cases a2 <;> simp [swap_ix_groups]
  · unfold orca_handle_swap_plan at ho
    split at ho
    · exact absurd ho (by simp)
    split at ho
    · exact absurd ho (by simp)
    injection ho with h
    subst h
    cases a3 <;> cases a4 <;> simp [swap_ix_groups]
  · unfold meteora_handle_swap_plan at hm
    split at hm
    · exact absurd hm (by simp)
    injection hm with h
    subst h
    cases a5 <;> cases a6 <;> simp [swap_ix_groups]
  · have h1 : bin_array_index_for_bin_id (active_id + BINS_PER_ARRAY)
        = bin_array_index_for_bin_id active_id + 1 := by
      rw [bin_array_index_eq_floor, bin_array_index_eq_floor]
      unfold BINS_PER_ARRAY
      omega
    have h2 : bin_array_index_for_bin_id (active_id - BINS_PER_ARRAY)
        = bin_array_index_for_bin_id active_id - 1 := by
      rw [bin_array_index_eq_floor, bin_array_index_eq_floor]
      unfold BINS_PER_ARRAY
      omega
    simp [meteora_swap_bin_array_indices, h1, h2]
  · unfold orca_swap_window ORCA_TICK_ARRAY_SIZE
    cases a_to_b <;> simp <;> omega
  · unfold orca_swap_window
    cases a_to_b <;> simp

/-- Witness for C7 at concrete successful swaps on all three backends
(current tick 100, spacing 2, Orca window start 176 upward, Meteora active
bin 100). -/
theorem C7_swap_window_witness :
    swap_ix_groups [.swapIx [tick_array_start_index 100 2]]
      = [[tick_array_start_index 100 2]] ∧
    swap_ix_groups [.swapIx (orca_swap_window 176 2 false)]
      = [orca_swap_window 176 2 false] ∧
    swap_ix_groups [.swapIx (meteora_swap_bin_array_indices 100)]
      = [meteora_swap_bin_array_indices 100] ∧
    meteora_swap_bin_array_indices 100
      = [bin_array_index_for_bin_id 100,
         bin_array_index_for_bin_id 100 + 1,
         bin_array_index_for_bin_id 100 - 1] ∧
    (orca_swap_window 176 2 false).Nodup ∧
    (orca_swap_window 176 2 false).length = 3 :=
  C7_swap_window 9 8 5 SPL_TOKEN_PROGRAM SPL_TOKEN_PROGRAM 1 1 1 1
    true true true true true true 100 2 176 100 false
    [.swapIx [tick_array_start_index 100 2]]
    [.swapIx (orca_swap_window 176 2 false)]
    [.swapIx (meteora_swap_bin_array_indices 100)]
    (by norm_num) rfl rfl rfl

/-- C8 counterexample: the Orca remove path appends the position-close
instruction although the close flag is `false` — the options are ignored
and the position is always closed. -/
theorem C8_remove_close_counterexample :
    orca_handle_remove_plan 8 8 1 1 true true 5 false
      = .ok [.decLiquidity, .collectFees, .closePos] ∧
    PlanIx.closePos ∈ ([.decLiquidity, .collectFees, .closePos] : List PlanIx) :=
  ⟨rfl, by simp⟩

/-- C8 (amended): on success, the Raydium remove plan contains the
liquidity-withdrawal instruction and contains a position-close instruction
exactly when the close flag is set (there is no separate fee-collection
instruction); the Meteora remove plan contains the withdrawal and closes
exactly when the flag is set; the Orca remove plan always contains a
position-close instruction (independently of the flag) and contains the
withdrawal and fee-collection instructions exactly when the position holds
nonzero liquidity. -/
theorem C8_remove_plan
    (clmm whirl : Nat) (liq liq_o : Nat) (m0 m1 ma mb mx my : Nat)
    (b0 b1 b2 b3 b4 b5 : Bool) (rprogs : List Nat)
    (close_r close_o close_m : Bool) (plan_r plan_o plan_m : List PlanIx)
    (hliq : liq ≠ 0)
    (hr : raydium_handle_remove_plan clmm clmm liq clmm m0 m1 b0 b1 rprogs close_r
        = .ok plan_r)
    (ho : orca_handle_remove_plan whirl whirl ma mb b2 b3 liq_o close_o = .ok plan_o)
    (hm : meteora_handle_remove_plan mx my b4 b5 close_m = plan_m) :
    PlanIx.decLiquidity ∈ plan_r ∧
    (PlanIx.closePos ∈ plan_r ↔ close_r = true) ∧
    PlanIx.collectFees ∉ plan_r ∧
    PlanIx.removeLiq ∈ plan_m ∧
    (PlanIx.closePos ∈ plan_m ↔ close_m = true) ∧
    PlanIx.closePos ∈ plan_o ∧
    (PlanIx.decLiquidity ∈ plan_o ↔ 0 < liq_o) ∧
    (PlanIx.collectFees ∈ plan_o ↔ 0 < liq_o) ∧
    orca_handle_remove_plan whirl whirl ma mb b2 b3 liq_o close_o
      = orca_handle_remove_plan whirl whirl ma mb b2 b3 liq_o true := by
  unfold raydium_handle_remove_plan at hr
  rw [if_neg (by simp), if_neg hliq, if_neg (by simp)] at hr
  injection hr with hr
  unfold orca_handle_remove_plan at ho
  rw [if_neg (by simp)] at ho
  injection ho with ho
  unfold meteora_handle_remove_plan at hm
  subst hr
  subst ho
  subst hm
  refine ⟨?_, ?_, ?_, ?_, ?_, ?_, ?_, ?_, ?_⟩
  · cases b0 <;> cases b1 <;> cases close_r <;> simp
  · cases b0 <;> cases b1 <;> cases close_r <;> simp
  · cases b0 <;> cases b1 <;> cases close_r <;> simp
  · cases b4 <;> cases b5 <;> cases close_m <;> simp
  · cases b4 <;> cases b5 <;> cases close_m <;> simp
  · by_cases hl : 0 < liq_o <;> cases b2 <;> cases b3 <;> simp [hl]
  · by_cases hl : 0 < liq_o <;> cases b2 <;> cases b3 <;> simp [hl]
  · by_cases hl : 0 < liq_o <;> cases b2 <;> cases b3 <;> simp [hl]
  · unfold orca_handle_remove_plan
    rfl

/-- Witness for C8 at concrete removes: Raydium with liquidity 5 and close
set, Orca with liquidity 7 and close unset, Meteora with close unset. -/
theorem C8_remove_plan_witness :
    PlanIx.decLiquidity ∈ ([.decLiquidity, .closePos] : List PlanIx) ∧
    (PlanIx.closePos ∈ ([.decLiquidity, .closePos] : List PlanIx) ↔ (true : Bool) = true) ∧
    PlanIx.collectFees ∉ ([.decLiquidity, .closePos] : List PlanIx) ∧
    PlanIx.removeLiq ∈ ([.removeLiq] : List PlanIx) ∧
    (PlanIx.closePos ∈ ([.removeLiq] : List PlanIx) ↔ (false : Bool) = true) ∧
    PlanIx.closePos ∈ ([.decLiquidity, .collectFees, .closePos] : List PlanIx) ∧
    (PlanIx.decLiquidity ∈ ([.decLiquidity, .collectFees, .closePos] : List PlanIx)
      ↔ 0 < 7) ∧
    (PlanIx.collectFees ∈ ([.decLiquidity, .collectFees, .closePos] : List PlanIx)
      ↔ 0 < 7) ∧
    orca_handle_remove_plan 8 8 1 1 true true 7 false
      = orca_handle_remove_plan 8 8 1 1 true true 7 true :=
  C8_remove_plan 9 8 5 7 1 1 1 1 1 1 true true true true true true []
    true false false
    [.decLiquidity, .closePos] [.decLiquidity, .collectFees, .closePos] [.removeLiq]
    (by norm_num) rfl rfl rfl

/-- C10: the Raydium swap path refuses token-2022 mints entirely: whenever
the fetched owner of the input or the output mint is not the legacy SPL
Token program (after the amount and pool checks pass), assembly fails with
the error naming both mint owners and no instruction list is produced,
whatever the remaining inputs are; the Orca and Meteora swap paths accept
token-2022 mints, selecting the token-2022 program for the token accounts
they create. -/
theorem C10_raydium_swap_rejects_token2022
    (clmm whirl : Nat) (amount_in : Nat) (in_owner out_owner : Nat)
    (a1 a2 : Bool) (tick_current tick_spacing start0 active_id : Int)
    (a_to_b : Bool)
    (hamt : amount_in ≠ 0)
    (howner : in_owner ≠ SPL_TOKEN_PROGRAM ∨ out_owner ≠ SPL_TOKEN_PROGRAM) :
    raydium_handle_swap_plan clmm amount_in clmm in_owner out_owner a1 a2
        tick_current tick_spacing
      = .error (.token2022 in_owner out_owner) ∧
    orca_handle_swap_plan whirl amount_in whirl TOKEN_2022_PROGRAM TOKEN_2022_PROGRAM
        false false start0 tick_spacing a_to_b
      = .ok [.createAta TOKEN_2022_PROGRAM, .createAta TOKEN_2022_PROGRAM,
          .swapIx (orca_swap_window start0 tick_spacing a_to_b)] ∧
    meteora_handle_swap_plan amount_in TOKEN_2022_PROGRAM TOKEN_2022_PROGRAM
        false false active_id
      = .ok [.createAta TOKEN_2022_PROGRAM, .createAta TOKEN_2022_PROGRAM,
          .swapIx (meteora_swap_bin_array_indices active_id)] := by
  refine ⟨?_, ?_, ?_⟩
  · unfold raydium_handle_swap_plan
    rw [if_neg hamt, if_neg (by simp), if_pos howner]
  · unfold orca_handle_swap_plan
    rw [if_neg hamt, if_neg (by simp)]
    simp [detect_token_program_for_mint]
  · unfold meteora_handle_swap_plan
    rw [if_neg hamt]
    simp [detect_token_program_for_mint]

/-- Witness for C10: a swap of 5 units on a pool whose input mint is owned
by token-2022. -/
theorem C10_raydium_swap_rejects_token2022_witness :
    raydium_handle_swap_plan 9 5 9 TOKEN_2022_PROGRAM SPL_TOKEN_PROGRAM true true 0 1
      = .error (.token2022 TOKEN_2022_PROGRAM SPL_TOKEN_PROGRAM) ∧
    orca_handle_swap_plan 8 5 8 TOKEN_2022_PROGRAM TOKEN_2022_PROGRAM
        false false 0 1 true
      = .ok [.createAta TOKEN_2022_PROGRAM, .createAta TOKEN_2022_PROGRAM,
          .swapIx (orca_swap_window 0 1 true)] ∧
    meteora_handle_swap_plan 5 TOKEN_2022_PROGRAM TOKEN_2022_PROGRAM false false 0
      = .ok [.createAta TOKEN_2022_PROGRAM, .createAta TOKEN_2022_PROGRAM,
          .swapIx (meteora_swap_bin_array_indices 0)] :=
  C10_raydium_swap_rejects_token2022 9 8 5 TOKEN_2022_PROGRAM SPL_TOKEN_PROGRAM
    true true 0 1 0 0 true (by norm_num) (by decide)

/-- C9 counterexample: with lower tick 1 (not a multiple of the tick
spacing 60), upper tick 120 and a nonzero amount0, the Raydium open path
performs the pool-account network fetch first and only then fails the
multiple-of-spacing check: the user-input error is not signaled before any
network call. -/
theorem C9_validation_order_counterexample :
    raydium_open_steps 1 120 1 0 9 9 60
      = [.netFetchPool, .failTickMultiple] ∧
    OpenStep.netFetchPool ∈ [OpenStep.netFetchPool, OpenStep.failTickMultiple] :=
  ⟨rfl, by simp⟩

/-- C9 (amended): with tick bounds that are not multiples of the pool's
tick spacing, both Raydium `handle_open` and `run_open` fail the
multiple-of-spacing check as a user-input error before the indices are
used in any address derivation and before any instruction is built — but
after the pool-state read that supplies the tick spacing (a network fetch
on the Raydium path; on `run_open` a network fetch happens first whenever
the snapshot is not cached or the owner must be refreshed). -/
theorem C9_validation_order
    (lower upper : Int) (amount0 amount1 : Nat) (clmm : Nat)
    (tick_spacing : Int) (cache_hit pid_known : Bool)
    (hlt : lower < upper) (ham : ¬(amount0 = 0 ∧ amount1 = 0))
    (hnm : lower.tmod tick_spacing ≠ 0 ∨ upper.tmod tick_spacing ≠ 0) :
    raydium_open_steps lower upper amount0 amount1 clmm clmm tick_spacing
      = [.netFetchPool, .failTickMultiple] ∧
    OpenStep.deriveTickArrays ∉
      raydium_open_steps lower upper amount0 amount1 clmm clmm tick_spacing ∧
    OpenStep.buildInstructions ∉
      raydium_open_steps lower upper amount0 amount1 clmm clmm tick_spacing ∧
    OpenStep.failTickMultiple
      ∈ run_open_steps cache_hit pid_known lower upper tick_spacing ∧
    OpenStep.deriveTickArrays
      ∉ run_open_steps cache_hit pid_known lower upper tick_spacing ∧
    OpenStep.buildInstructions
      ∉ run_open_steps cache_hit pid_known lower upper tick_spacing := by
  have h1 : raydium_open_steps lower upper amount0 amount1 clmm clmm tick_spacing
      = [.netFetchPool, .failTickMultiple] := by
    unfold raydium_open_steps
    rw [if_neg (by omega), if_neg ham, if_neg (by simp), if_pos hnm]
  have hno : ¬ (upper ≤ lower) := by omega
  have h2 : run_open_steps cache_hit pid_known lower upper tick_spacing
      = (if cache_hit then [] else [.netFetchPool])
        ++ (if pid_known then [] else [.netFetchPool])
        ++ [.failTickMultiple] := by
    unfold run_open_steps
    rw [if_neg hno, if_pos hnm]
  refine ⟨h1, by rw [h1]; simp, by rw [h1]; simp,
    by rw [h2]; cases cache_hit <;> cases pid_known <;> simp,
    by rw [h2]; cases cache_hit <;> cases pid_known <;> simp,
    by rw [h2]; cases cache_hit <;> cases pid_known <;> simp⟩

/-- Witness for C9 at lower tick 1, upper tick 120, tick spacing 60 with a
cached snapshot. -/
theorem C9_validation_order_witness :
    raydium_open_steps 1 120 1 0 9 9 60
      = [.netFetchPool, .failTickMultiple] ∧
    OpenStep.deriveTickArrays ∉ raydium_open_steps 1 120 1 0 9 9 60 ∧
    OpenStep.buildInstructions ∉ raydium_open_steps 1 120 1 0 9 9 60 ∧
    OpenStep.failTickMultiple ∈ run_open_steps true true 1 120 60 ∧
    OpenStep.deriveTickArrays ∉ run_open_steps true true 1 120 60 ∧
    OpenStep.buildInstructions ∉ run_open_steps true true 1 120 60 :=
  C9_validation_order 1 120 1 0 9 60 true true (by norm_num)
    (by norm_num) (by decide)

end LiqArb
